import Mathlib

/-!
Shallow embedding of the restaurant-chatbot backend
(actions/validators.py and actions/actions.py).

Strings are modelled as `List Char` (ASCII fragment of Python `str`).
Python functions returning either a value or `None` become `Option`.
Dispatcher messages of the form validators are elided (the claims about
validators only concern acceptance and the normalized value); the
messages of `ActionSaveBooking.run` are modelled exactly.
-/

/-- Python `str.isspace` on the ASCII whitespace characters used by
`strip` and `split`. -/
def pyIsSpace (c : Char) : Bool :=
  c == ' ' || c == '\t' || c == '\n' || c == '\r' || c == '\x0b' || c == '\x0c'

/-- Python `str.strip()`: drop whitespace from both ends. -/
def pstrip (l : List Char) : List Char :=
  ((l.dropWhile pyIsSpace).reverse.dropWhile pyIsSpace).reverse

/-- Maximal runs of characters satisfying `keep`, accumulator form. -/
def runsGo (keep : Char → Bool) (cur : List Char) : List Char → List (List Char)
  | [] => if cur.isEmpty then [] else [cur.reverse]
  | c :: cs =>
    if keep c then runsGo keep (c :: cur) cs
    else if cur.isEmpty then runsGo keep [] cs
    else cur.reverse :: runsGo keep [] cs

/-- Maximal runs of characters satisfying `keep` (other characters separate). -/
def runsOf (keep : Char → Bool) (l : List Char) : List (List Char) :=
  runsGo keep [] l

/-- Python `str.split()` with no argument: maximal non-whitespace runs. -/
def pySplit (l : List Char) : List (List Char) :=
  runsOf (fun c => !pyIsSpace c) l

/-- Number of words of `str.split()`. -/
def wordCount (l : List Char) : Nat := (pySplit l).length

/-- Whether `needle` is a leading segment of the second list. -/
def leadsL : List Char → List Char → Bool
  | [], _ => true
  | _ :: _, [] => false
  | a :: as, b :: bs => a == b && leadsL as bs

/-- Python substring test `needle in hay`. -/
def hasSubL (needle : List Char) : List Char → Bool
  | [] => leadsL needle []
  | c :: cs => leadsL needle (c :: cs) || hasSubL needle cs

/-- Python `value.lower()` on the ASCII fragment. -/
def pyLower (l : List Char) : List Char := l.map Char.toLower

/-- The module-level TRIGGER_WORDS set of validators.py. -/
def TRIGGER_WORDS : List (List Char) :=
  [r"hi", r"hello", r"hey", r"menu", r"booking", r"book", r"book a table",
   r"reserve", r"table"].map String.toList

/-- The keyword list tested by substring inside is_trigger_phrase. -/
def triggerKeywords : List (List Char) :=
  [r"book", r"booking", r"menu", r"reserve", r"hi", r"hello", r"table"].map String.toList

/-- The intent names checked by is_trigger_phrase. -/
def triggerIntents : List (List Char) :=
  [r"greet", r"book_table", r"show_menu", r"goodbye"].map String.toList

/-- Whether some trigger keyword occurs as a substring of `v`. -/
def anyKeyword (v : List Char) : Bool :=
  triggerKeywords.any (fun k => hasSubL k v)

/-- The slice of the rasa Tracker the validators read: the latest message
text, the latest predicted intent name, and the requested_slot slot. -/
structure Tracker where
  latest_text : List Char
  intent_name : List Char
  requested_slot : Option (List Char)

/-- The helper _is_trigger_phrase of validators.py. `none` is Python
`None`; the empty string is also falsy for the initial `if not value`. -/
def is_trigger_phrase (value : Option (List Char)) (tr : Tracker) : Bool :=
  match value with
  | none => false
  | some s =>
    if s.isEmpty then false
    else
      let v := pyLower (pstrip s)
      if v ∈ TRIGGER_WORDS then true
      else if tr.intent_name ∈ triggerIntents ∧ wordCount v ≤ 3 ∧ anyKeyword v = true then true
      else if wordCount v ≤ 3 ∧ anyKeyword v = true then true
      else false

/-- The helper _normalize_digits: keep only the digit characters. -/
def normalize_digits (l : List Char) : List Char := l.filter Char.isDigit

def nameKey : List Char := "name".toList
def phoneKey : List Char := "phone".toList
def dateKey : List Char := "date".toList
def timeKey : List Char := "time".toList
def partySizeKey : List Char := "party_size".toList

namespace ValidateBookingForm

/-- validate_name of ValidateBookingForm: reject when name is not the
requested slot, when the value is a trigger phrase, or when the stripped
value is shorter than 2 characters; otherwise collapse whitespace. -/
def validate_name (v : List Char) (tr : Tracker) : Option (List Char) :=
  if tr.requested_slot = some nameKey then
    if is_trigger_phrase (some v) tr then none
    else if (pstrip v).length < 2 then none
    else some (List.intercalate ([' ']) (pySplit (pstrip v)))
  else none

/-- validate_phone of ValidateBookingForm: extract the digits and accept
exactly the digit counts 7 through 15, returning the digit string. -/
def validate_phone (v : List Char) (tr : Tracker) : Option (List Char) :=
  if tr.requested_slot = some phoneKey then
    if is_trigger_phrase (some v) tr then none
    else
      let digits := normalize_digits v
      if digits.length < 7 ∨ digits.length > 15 then none
      else some digits
  else none

end ValidateBookingForm

/-- A fixed tracker whose requested slot is `slot`, latest intent
`inform`, used for concrete evaluations. -/
def trFor (slot : List Char) : Tracker :=
  ⟨[], "inform".toList, some slot⟩

/-- Numeric value of a digit character. -/
def digitVal (c : Char) : Nat := c.toNat - 48

/-- First element of the list on which `f` yields a value (regex
backtracking over an ordered candidate list). -/
def firstHit (f : α → Option β) : List α → Option β
  | [] => none
  | x :: xs =>
    match f x with
    | some r => some r
    | none => firstHit f xs

/-- Candidates of the CPython strptime day pattern
3[01] or [12]d or 0[1-9] or [1-9], in alternation order, each with the
remaining input. -/
def dayCands : List Char → List (Nat × List Char)
  | c1 :: c2 :: rest =>
    (if c1 == '3' && (c2 == '0' || c2 == '1') then [(30 + digitVal c2, rest)] else []) ++
    (if (c1 == '1' || c1 == '2') && c2.isDigit then [(10 * digitVal c1 + digitVal c2, rest)] else []) ++
    (if c1 == '0' && c2.isDigit && 1 ≤ digitVal c2 then [(digitVal c2, rest)] else []) ++
    (if c1.isDigit && 1 ≤ digitVal c1 then [(digitVal c1, c2 :: rest)] else [])
  | [c1] => if c1.isDigit && 1 ≤ digitVal c1 then [(digitVal c1, [])] else []
  | [] => []

/-- Candidates of the CPython strptime month pattern
1[0-2] or 0[1-9] or [1-9], in alternation order. -/
def monthCands : List Char → List (Nat × List Char)
  | c1 :: c2 :: rest =>
    (if c1 == '1' && (c2 == '0' || c2 == '1' || c2 == '2') then [(10 + digitVal c2, rest)] else []) ++
    (if c1 == '0' && c2.isDigit && 1 ≤ digitVal c2 then [(digitVal c2, rest)] else []) ++
    (if c1.isDigit && 1 ≤ digitVal c1 then [(digitVal c1, c2 :: rest)] else [])
  | [c1] => if c1.isDigit && 1 ≤ digitVal c1 then [(digitVal c1, [])] else []
  | [] => []

/-- Exactly four digits (the strptime year pattern). -/
def year4 : List Char → Option (Nat × List Char)
  | a :: b :: c :: d :: rest =>
    if a.isDigit && b.isDigit && c.isDigit && d.isDigit then
      some (1000 * digitVal a + 100 * digitVal b + 10 * digitVal c + digitVal d, rest)
    else none
  | _ => none

def sepSlash : Char := '/'
def sepDash : Char := '-'

/-- strptime with format day sep month sep 4-digit-year, whole string.
Covers both the d/m/Y and the d-m-Y formats of validate_date.
Returns (day, month, year). -/
def parseDMY (sep : Char) (s : List Char) : Option (Nat × Nat × Nat) :=
  firstHit (fun dp =>
    match dp.2 with
    | c :: rest =>
      if c == sep then
        firstHit (fun mp =>
          match mp.2 with
          | c2 :: rest2 =>
            if c2 == sep then
              match year4 rest2 with
              | some (y, restY) => if restY.isEmpty then some (dp.1, mp.1, y) else none
              | none => none
            else none
          | [] => none) (monthCands rest)
      else none
    | [] => none) (dayCands s)

/-- strptime with the Y-m-d format, whole string. Returns (day, month, year). -/
def parseYMD (s : List Char) : Option (Nat × Nat × Nat) :=
  match year4 s with
  | some (y, r1) =>
    (match r1 with
     | c :: r2 =>
       if c == sepDash then
         firstHit (fun mp =>
           match mp.2 with
           | c2 :: r3 =>
             if c2 == sepDash then
               firstHit (fun dp => if dp.2.isEmpty then some (dp.1, mp.1, y) else none)
                 (dayCands r3)
             else none
           | [] => none) (monthCands r2)
       else none
     | [] => none)
  | none => none

/-- Candidates of a greedy one-or-two digit group, longest first. -/
def grp12 : List Char → List (Nat × List Char)
  | a :: b :: rest =>
    (if a.isDigit && b.isDigit then [(10 * digitVal a + digitVal b, rest)] else []) ++
    (if a.isDigit then [(digitVal a, b :: rest)] else [])
  | [a] => if a.isDigit then [(digitVal a, [])] else []
  | [] => []

/-- One mandatory non-digit character. -/
def nonDigitStep : List Char → Option (List Char)
  | c :: cs => if c.isDigit then none else some cs
  | [] => none

/-- Match of the fallback date pattern digits-sep-digits-sep-4digits at
the start of the input. Returns (day, month, year). -/
def matchDMYAt (s : List Char) : Option (Nat × Nat × Nat) :=
  firstHit (fun dp =>
    match nonDigitStep dp.2 with
    | some r1 =>
      firstHit (fun mp =>
        match nonDigitStep mp.2 with
        | some r2 =>
          (match year4 r2 with
           | some (y, _) => some (dp.1, mp.1, y)
           | none => none)
        | none => none) (grp12 r1)
    | none => none) (grp12 s)

/-- re.search of the fallback date pattern: leftmost match wins. -/
def searchDMY : List Char → Option (Nat × Nat × Nat)
  | [] => none
  | c :: cs =>
    match matchDMYAt (c :: cs) with
    | some r => some r
    | none => searchDMY cs

/-- A Python datetime.date value. -/
structure PyDate where
  year : Nat
  month : Nat
  day : Nat

/-- Gregorian leap year. -/
def isLeap (y : Nat) : Bool := (y % 4 == 0 && y % 100 != 0) || y % 400 == 0

/-- Length of a month. -/
def daysInMonth (y m : Nat) : Nat :=
  if m = 2 then (if isLeap y then 29 else 28)
  else if m = 4 ∨ m = 6 ∨ m = 9 ∨ m = 11 then 30
  else 31

/-- Days in the months strictly before month `m` of year `y`. -/
def daysBeforeMonth (y m : Nat) : Nat :=
  [0, 31, 59, 90, 120, 151, 181, 212, 243, 273, 304, 334].getD (m - 1) 0 +
    (if 2 < m ∧ isLeap y then 1 else 0)

/-- Proleptic Gregorian ordinal of a date (the count datetime.toordinal
uses, day 1 being 0001-01-01). -/
def toOrdinal (d : PyDate) : Nat :=
  365 * (d.year - 1) + (d.year - 1) / 4 - (d.year - 1) / 100 + (d.year - 1) / 400 +
    daysBeforeMonth d.year d.month + d.day

/-- Python date comparison. -/
def dateLt (a b : PyDate) : Prop := toOrdinal a < toOrdinal b

instance (a b : PyDate) : Decidable (dateLt a b) := by
  unfold dateLt; infer_instance

/-- The validity check the datetime constructor performs: year in
[1, 9999], month in [1, 12], day in [1, daysInMonth]. -/
def validDate (y m d : Nat) : Bool :=
  decide (1 ≤ y) && decide (y ≤ 9999) && decide (1 ≤ m) && decide (m ≤ 12) &&
    decide (1 ≤ d) && decide (d ≤ daysInMonth y m)

/-- Two-digit zero-padded decimal rendering. -/
def pad2 (n : Nat) : List Char :=
  [Char.ofNat (48 + n / 10 % 10), Char.ofNat (48 + n % 10)]

/-- Four-digit zero-padded decimal rendering. -/
def pad4 (n : Nat) : List Char :=
  [Char.ofNat (48 + n / 1000 % 10), Char.ofNat (48 + n / 100 % 10),
   Char.ofNat (48 + n / 10 % 10), Char.ofNat (48 + n % 10)]

/-- date.isoformat(): YYYY-MM-DD. -/
def isoFmt (d : PyDate) : List Char :=
  pad4 d.year ++ [sepDash] ++ pad2 d.month ++ [sepDash] ++ pad2 d.day

/-- One iteration of the validate_date format loop: `none` means the
parse or the datetime construction raised (continue), `some r` means the
code returned `r` (rejecting past dates, accepting the rest). -/
def tryParsedDate (p : Option (Nat × Nat × Nat)) (today : PyDate) : Option (Option (List Char)) :=
  match p with
  | none => none
  | some (d, m, y) =>
    if validDate y m d then
      if dateLt ⟨y, m, d⟩ today then some none
      else some (some (isoFmt ⟨y, m, d⟩))
    else none

/-- The format loop of validate_date followed by the regex fallback,
over the parse attempts in source order. -/
def dateLoop (today : PyDate) : List (Option (Nat × Nat × Nat)) → Option (List Char)
  | [] => none
  | p :: rest =>
    match tryParsedDate p today with
    | some r => r
    | none => dateLoop today rest

/-- The parse attempts of validate_date in source order: d/m/Y, Y-m-d,
d-m-Y, then the loose regex search. -/
def formatChain (s : List Char) : List (Option (Nat × Nat × Nat)) :=
  [parseDMY sepSlash s, parseYMD s, parseDMY sepDash s, searchDMY s]

namespace ValidateBookingForm

/-- validate_date of ValidateBookingForm. `today` stands for
datetime.now().date(). -/
def validate_date (v : List Char) (tr : Tracker) (today : PyDate) : Option (List Char) :=
  if tr.requested_slot = some dateKey then
    if is_trigger_phrase (some v) tr then none
    else dateLoop today (formatChain (pstrip v))
  else none

end ValidateBookingForm

/-- The first parse attempt that yields a constructible calendar date
(the characterization validate_date is proved against). -/
def firstValidParse : List (Option (Nat × Nat × Nat)) → Option (Nat × Nat × Nat)
  | [] => none
  | p :: rest =>
    match p with
    | some (d, m, y) => if validDate y m d then some (d, m, y) else firstValidParse rest
    | none => firstValidParse rest

/-- Candidates of the CPython strptime hour pattern
2[0-3] or [0-1]d or d, in alternation order. -/
def hourCands : List Char → List (Nat × List Char)
  | a :: b :: rest =>
    (if a == '2' && (b == '0' || b == '1' || b == '2' || b == '3') then [(20 + digitVal b, rest)] else []) ++
    (if (a == '0' || a == '1') && b.isDigit then [(10 * digitVal a + digitVal b, rest)] else []) ++
    (if a.isDigit then [(digitVal a, b :: rest)] else [])
  | [a] => if a.isDigit then [(digitVal a, [])] else []
  | [] => []

/-- Candidates of the CPython strptime minute pattern [0-5]d or d. -/
def minuteCands : List Char → List (Nat × List Char)
  | a :: b :: rest =>
    (if a.isDigit && digitVal a ≤ 5 && b.isDigit then [(10 * digitVal a + digitVal b, rest)] else []) ++
    (if a.isDigit then [(digitVal a, b :: rest)] else [])
  | [a] => if a.isDigit then [(digitVal a, [])] else []
  | [] => []

def colonC : Char := ':'
def dotC : Char := '.'

/-- strptime with the H:M format, whole string. Returns (hour, minute). -/
def strptimeHM (s : List Char) : Option (Nat × Nat) :=
  firstHit (fun hp =>
    match hp.2 with
    | c :: rest =>
      if c == colonC then
        firstHit (fun mp => if mp.2.isEmpty then some (hp.1, mp.1) else none)
          (minuteCands rest)
      else none
    | [] => none) (hourCands s)

/-- Optional colon-or-dot separator of the fallback time pattern,
greedy: consuming alternative first. -/
def sepOpt : List Char → List (List Char)
  | [] => [[]]
  | c :: cs => if c == colonC || c == dotC then [cs, c :: cs] else [c :: cs]

/-- Exactly two digits. -/
def twoDigits : List Char → Option (Nat × List Char)
  | a :: b :: rest => if a.isDigit && b.isDigit then some (10 * digitVal a + digitVal b, rest) else none
  | _ => none

/-- Match of the fallback time pattern at the start of the input. -/
def matchHMAt (s : List Char) : Option (Nat × Nat) :=
  firstHit (fun hp =>
    firstHit (fun rest =>
      match twoDigits rest with
      | some (mv, _) => some (hp.1, mv)
      | none => none) (sepOpt hp.2)) (grp12 s)

/-- re.search of the fallback time pattern: leftmost match wins. -/
def searchHM : List Char → Option (Nat × Nat)
  | [] => none
  | c :: cs =>
    match matchHMAt (c :: cs) with
    | some r => some r
    | none => searchHM cs

namespace ValidateBookingForm

/-- validate_time of ValidateBookingForm: strptime H:M, else the digit
extraction fallback with a 0-23 / 0-59 bound check; the output is
zero-padded HH:MM. No business-hours window is consulted. -/
def validate_time (v : List Char) (tr : Tracker) : Option (List Char) :=
  if tr.requested_slot = some timeKey then
    if is_trigger_phrase (some v) tr then none
    else
      let s := pstrip v
      match strptimeHM s with
      | some (h, m) => some (pad2 h ++ [colonC] ++ pad2 m)
      | none =>
        match searchHM s with
        | some (h, m) =>
          if h ≤ 23 ∧ m ≤ 59 then some (pad2 h ++ [colonC] ++ pad2 m) else none
        | none => none
  else none

end ValidateBookingForm

/-- The accepted (hour, minute) of a time candidate: strptime result, or
the in-bounds fallback extraction. -/
def timeParsed (s : List Char) : Option (Nat × Nat) :=
  match strptimeHM s with
  | some hm => some hm
  | none =>
    match searchHM s with
    | some (h, m) => if h ≤ 23 ∧ m ≤ 59 then some (h, m) else none
    | none => none

/-- The number-word table of validators.py (one through twenty). -/
def numberWords : List (List Char × Nat) :=
  [(r"one", 1), (r"two", 2), (r"three", 3), (r"four", 4), (r"five", 5),
   (r"six", 6), (r"seven", 7), (r"eight", 8), (r"nine", 9), (r"ten", 10),
   (r"eleven", 11), (r"twelve", 12), (r"thirteen", 13), (r"fourteen", 14),
   (r"fifteen", 15), (r"sixteen", 16), (r"seventeen", 17), (r"eighteen", 18),
   (r"nineteen", 19), (r"twenty", 20)].map (fun p => (p.1.toList, p.2))

/-- Value of a number word, if listed. -/
def numberWordVal (w : List Char) : Option Nat :=
  firstHit (fun p => if p.1 == w then some p.2 else none) numberWords

/-- Whether a character is a lowercase ASCII letter (the [a-z] class). -/
def isLowerAlpha (c : Char) : Bool := 'a' ≤ c && c ≤ 'z'

/-- re.findall of [a-z]+: the maximal lowercase-letter runs. -/
def alphaRuns (l : List Char) : List (List Char) := runsOf isLowerAlpha l

/-- Leftmost maximal digit run (re.search of one-or-more digits). -/
def firstDigitRun : List Char → Option (List Char)
  | [] => none
  | c :: cs =>
    if c.isDigit then some (c :: cs.takeWhile Char.isDigit)
    else firstDigitRun cs

/-- Decimal value of a digit string. -/
def digitsToNat (l : List Char) : Nat := l.foldl (fun a c => 10 * a + digitVal c) 0

/-- The number extracted by validate_party_size: the first digit run if
any, else the first word found in the number-word table. -/
def extractNum (sv : List Char) : Option Nat :=
  match firstDigitRun sv with
  | some run => some (digitsToNat run)
  | none => firstHit numberWordVal (alphaRuns sv)

namespace ValidateBookingForm

/-- validate_party_size of ValidateBookingForm: digit extraction first,
else word-number lookup over the letter runs, then the range check 1
through 20. -/
def validate_party_size (v : List Char) (tr : Tracker) : Option Nat :=
  if tr.requested_slot = some partySizeKey then
    if is_trigger_phrase (some v) tr then none
    else if v.isEmpty then none
    else
      let sv := pyLower (pstrip v)
      match firstDigitRun sv with
      | some run =>
        if digitsToNat run < 1 ∨ digitsToNat run > 20 then none else some (digitsToNat run)
      | none =>
        match firstHit numberWordVal (alphaRuns sv) with
        | some num => if num < 1 ∨ num > 20 then none else some num
        | none => none
  else none

end ValidateBookingForm

def today0 : PyDate := ⟨2026, 10, 12⟩

/-! ## actions.py: the booking store and ActionSaveBooking -/

/-- A parsed JSON document (the values json.load can produce). -/
inductive Json where
  | null : Json
  | bool (b : Bool) : Json
  | num (n : Int) : Json
  | str (s : List Char) : Json
  | arr (items : List Json) : Json
  | obj (fields : List (List Char × Json)) : Json

/-- Dictionary lookup on an object field list (keys are unique after
json.load, so first match suffices). -/
def jLookup (fields : List (List Char × Json)) (k : List Char) : Option Json :=
  match fields with
  | [] => none
  | (k2, v) :: rest => if k2 == k then some v else jLookup rest k

def bookingsKey : List Char := "bookings".toList

/-- The structural check of load_bookings: a dict whose bookings key
holds a list. -/
def isStoreShape (j : Json) : Bool :=
  match j with
  | Json.obj fields =>
    (match jLookup fields bookingsKey with
     | some (Json.arr _) => true
     | _ => false)
  | _ => false

/-- Content of one file path: absent, present but not valid JSON
(carrying the raw bytes), or present with a parsed JSON value. -/
inductive FileContent where
  | missing : FileContent
  | invalid (raw : List Char) : FileContent
  | valid (j : Json) : FileContent

/-- State of the backend_data directory as the actions see it: the
bookings file, its .bak sibling, and whether the rename and the atomic
write primitives succeed (os errors). -/
structure FStore where
  main : FileContent
  bak : FileContent
  renameOk : Bool
  writeOk : Bool

/-- atomic_write_json on the bookings path: an atomic swap that either
installs the document or raises (modelled by the error case). -/
def atomicWriteMain (fs : FStore) (j : Json) : Except FStore FStore :=
  if fs.writeOk then Except.ok ⟨FileContent.valid j, fs.bak, fs.renameOk, fs.writeOk⟩
  else Except.error fs

/-- The best-effort os.rename of the bad bookings file to the .bak
path; a failing rename is swallowed and leaves the state unchanged. -/
def renameToBak (fs : FStore) : FStore :=
  if fs.renameOk then ⟨FileContent.missing, fs.main, fs.renameOk, fs.writeOk⟩ else fs

/-- The empty store document the code writes when resetting. -/
def baseStore : Json := Json.obj [(bookingsKey, Json.arr [])]

/-- load_bookings of actions.py. The error case is an exception
escaping to the caller (only the fresh atomic write can raise; parse
failures and bad shapes are handled). -/
def load_bookings (fs : FStore) : Except FStore (Json × FStore) :=
  match fs.main with
  | FileContent.missing =>
    (match atomicWriteMain fs baseStore with
     | Except.ok fs2 => Except.ok (baseStore, fs2)
     | Except.error e => Except.error e)
  | FileContent.valid j =>
    if isStoreShape j then Except.ok (j, fs)
    else
      (match j with
       | Json.arr l => Except.ok (Json.obj [(bookingsKey, Json.arr l)], fs)
       | _ =>
         match atomicWriteMain fs baseStore with
         | Except.ok fs2 => Except.ok (baseStore, fs2)
         | Except.error e => Except.error e)
  | FileContent.invalid _ =>
    match atomicWriteMain (renameToBak fs) baseStore with
    | Except.ok fs2 => Except.ok (baseStore, fs2)
    | Except.error e => Except.error e

/-- save_bookings of actions.py: atomically write the wrapped list. -/
def save_bookings (l : List Json) (fs : FStore) : Except FStore FStore :=
  atomicWriteMain fs (Json.obj [(bookingsKey, Json.arr l)])

/-- The bookings list a caller reads out of the load result
(data.get of the bookings key with default empty list). -/
def getBookingsArr (j : Json) : List Json :=
  match j with
  | Json.obj fields =>
    (match jLookup fields bookingsKey with
     | some (Json.arr l) => l
     | _ => [])
  | _ => []

/-- The bookings list currently on disk, as load_bookings reports it
(empty when loading raises). -/
def storeList (fs : FStore) : List Json :=
  match load_bookings fs with
  | Except.ok (j, _) => getBookingsArr j
  | Except.error _ => []

/-- Python truthiness of a JSON value. -/
def pyTruthy (j : Json) : Bool :=
  match j with
  | Json.null => false
  | Json.bool b => b
  | Json.num n => n != 0
  | Json.str s => !s.isEmpty
  | Json.arr l => !l.isEmpty
  | Json.obj f => !f.isEmpty

/-- Python `x or ""` applied to an optional slot value. -/
def pyOrEmpty (o : Option Json) : Json :=
  match o with
  | none => Json.str []
  | some j => if pyTruthy j then j else Json.str []

/-- Decimal rendering of a natural number (fuel-structured so the
kernel can evaluate it). -/
def natToDecAux : Nat → Nat → List Char
  | 0, _ => []
  | fuel + 1, n =>
    if n < 10 then [Char.ofNat (48 + n)]
    else natToDecAux fuel (n / 10) ++ [Char.ofNat (48 + n % 10)]

def natToDec (n : Nat) : List Char := natToDecAux (n + 1) n

/-- Python str() on the JSON values a slot can hold. -/
def pyStr (j : Json) : List Char :=
  match j with
  | Json.str s => s
  | Json.num n => if n < 0 then [sepDash] ++ natToDec n.natAbs else natToDec n.natAbs
  | Json.bool true => "True".toList
  | Json.bool false => "False".toList
  | Json.null => "None".toList
  | Json.arr _ => []
  | Json.obj _ => []

/-- The six slots ActionSaveBooking reads from the tracker. -/
structure Slots where
  name : Option Json
  phone : Option Json
  date : Option Json
  time : Option Json
  party_size : Option Json
  special_request : Option Json

/-- The Twilio environment: whether the client import succeeded, the
three getenv values, whether messages.create succeeds, and str(e) of
the exception when it does not. -/
structure TwilioEnv where
  clientAvailable : Bool
  sid : Option (List Char)
  token : Option (List Char)
  fromNum : Option (List Char)
  sendOk : Bool
  errText : List Char

/-- The inputs of one ActionSaveBooking.run invocation: the slots, the
random booking-id number, the utcnow timestamp and the Twilio state. -/
structure RunInput where
  slots : Slots
  rid : Nat
  now : List Char
  env : TwilioEnv

def bookingIdKey : List Char := "booking_id".toList
def specialRequestKey : List Char := "special_request".toList
def createdAtKey : List Char := "created_at".toList
def bookingConfirmedKey : List Char := "booking_confirmed".toList

/-- The generated booking identifier BKG followed by the random number. -/
def bookingIdOf (rid : Nat) : List Char := "BKG".toList ++ natToDec rid

/-- phone_digits of the run: digits of str() of the phone slot after
the `or` substitution. -/
def phoneDigitsOf (inp : RunInput) : List Char :=
  normalize_digits (pyStr (pyOrEmpty inp.slots.phone))

/-- The booking_record dict the run appends to the store. -/
def recordJson (inp : RunInput) : Json :=
  Json.obj
    [(bookingIdKey, Json.str (bookingIdOf inp.rid)),
     (nameKey, pyOrEmpty inp.slots.name),
     (phoneKey, Json.str (phoneDigitsOf inp)),
     (dateKey, pyOrEmpty inp.slots.date),
     (timeKey, pyOrEmpty inp.slots.time),
     (partySizeKey, pyOrEmpty inp.slots.party_size),
     (specialRequestKey, pyOrEmpty inp.slots.special_request),
     (createdAtKey, Json.str (inp.now ++ ("Z".toList)))]

/-- Truthiness of one getenv result (None and the empty string are
falsy). -/
def optTruthy (o : Option (List Char)) : Bool :=
  match o with
  | none => false
  | some s => !s.isEmpty

/-- The guard of the Twilio send: client importable, the three
environment values truthy, and a nonempty digit string. -/
def sendCond (inp : RunInput) : Bool :=
  inp.env.clientAvailable && optTruthy inp.env.sid && optTruthy inp.env.token &&
    optTruthy inp.env.fromNum && !(phoneDigitsOf inp).isEmpty

def savedMsgA : List Char := "Saved booking ".toList
def savedMsgB : List Char := " for ".toList
def savedMsgC : List Char := ".".toList

/-- The first dispatcher message of the run. -/
def savedMsgText (inp : RunInput) : List Char :=
  savedMsgA ++ bookingIdOf inp.rid ++ savedMsgB ++ pyStr (pyOrEmpty inp.slots.name) ++ savedMsgC

def sentMsgA : List Char := "A confirmation SMS was sent to ".toList

/-- The dispatcher message after a successful SMS send. -/
def sentMsgText (inp : RunInput) : List Char :=
  sentMsgA ++ phoneDigitsOf inp ++ savedMsgC

def failMsgA : List Char := "Booking saved, but failed to send SMS: ".toList

/-- The dispatcher message after a failed SMS send. -/
def failMsgText (inp : RunInput) : List Char := failMsgA ++ inp.env.errText

/-- The dispatcher message when Twilio is not configured. -/
def notConfiguredMsgText : List Char :=
  "Booking saved. (SMS not sent — Twilio not configured.)".toList

/-- The full dispatcher message list of a completed run. -/
def messagesOf (inp : RunInput) : List (List Char) :=
  if sendCond inp then
    if inp.env.sendOk then [savedMsgText inp, sentMsgText inp]
    else [savedMsgText inp, failMsgText inp]
  else [savedMsgText inp, notConfiguredMsgText]

/-- The SlotSet events a completed run returns (lines 285-294). -/
def runEventsOf (inp : RunInput) : List (List Char × Json) :=
  [(bookingConfirmedKey, Json.bool true),
   (bookingIdKey, Json.str (bookingIdOf inp.rid)),
   (nameKey, pyOrEmpty inp.slots.name),
   (phoneKey, Json.str (phoneDigitsOf inp)),
   (dateKey, pyOrEmpty inp.slots.date),
   (timeKey, pyOrEmpty inp.slots.time),
   (partySizeKey, pyOrEmpty inp.slots.party_size),
   (specialRequestKey, pyOrEmpty inp.slots.special_request)]

/-- Outcome of one run: either an exception escaped (with the disk
state at that point) or the action completed with its messages, its
returned events and the final disk state. -/
inductive RunResult where
  | raised (fs : FStore) : RunResult
  | done (messages : List (List Char)) (events : List (List Char × Json)) (fs : FStore) : RunResult

/-- The message list of an outcome (none when the action raised). -/
def runMessages : RunResult → List (List Char)
  | RunResult.raised _ => []
  | RunResult.done m _ _ => m

namespace ActionSaveBooking

/-- ActionSaveBooking.run of actions.py: read slots with the `or`
substitution, build the record, load-append-save the store, dispatch
the outcome messages and return the SlotSet events. Exceptions of the
two disk writes propagate (nothing catches them). -/
def run (inp : RunInput) (fs : FStore) : RunResult :=
  match load_bookings fs with
  | Except.error fsE => RunResult.raised fsE
  | Except.ok (data, fs1) =>
    match save_bookings (getBookingsArr data ++ [recordJson inp]) fs1 with
    | Except.error fsE => RunResult.raised fsE
    | Except.ok fs2 => RunResult.done (messagesOf inp) (runEventsOf inp) fs2

end ActionSaveBooking

/-- Field access on a JSON object. -/
def jGet (j : Json) (k : List Char) : Option Json :=
  match j with
  | Json.obj f => jLookup f k
  | _ => none

/-- Concrete slot values for witness evaluations. -/
def slots0 : Slots :=
  ⟨some (Json.str ("Asha Rao".toList)), some (Json.str ("9876543210".toList)),
   some (Json.str ("2026-11-20".toList)), some (Json.str ("19:30".toList)),
   some (Json.num 4), none⟩

/-- A Twilio environment with no configuration at all. -/
def env0 : TwilioEnv := ⟨false, none, none, none, true, []⟩

/-- A fully configured Twilio environment whose send raises. -/
def env8 : TwilioEnv :=
  ⟨true, some ("AC123".toList), some ("tok".toList), some ("+14150000000".toList),
   false, "boom".toList⟩

def now0 : List Char := "2026-10-12T09:00:00".toList

def inp0 : RunInput := ⟨slots0, 1234, now0, env0⟩

def inp8 : RunInput := ⟨slots0, 4321, now0, env8⟩

/-- A fresh directory: no bookings file yet, writes succeed. -/
def fs0 : FStore := ⟨FileContent.missing, FileContent.missing, true, true⟩

/-- A store whose bookings file is valid but whose writes fail. -/
def fs7 : FStore := ⟨FileContent.valid baseStore, FileContent.missing, true, false⟩

def fooKey : List Char := "foo".toList

/-- A bookings file that is valid JSON of the wrong structure. -/
def fs6 : FStore := ⟨FileContent.valid (Json.obj [(fooKey, Json.num 1)]), FileContent.missing, true, true⟩

def raw6 : List Char := "not json at all".toList

/-- A bookings file whose bytes are not JSON at all. -/
def fs6b : FStore := ⟨FileContent.invalid raw6, FileContent.missing, true, true⟩

def phone8 : List Char := "12345678".toList
def phone12 : List Char := "911234567890".toList
def phone10 : List Char := "9876543210".toList
def dateFar : List Char := "2030-01-01".toList
def dateWit : List Char := "25/12/2026".toList
def time0200 : List Char := "02:00".toList
def fiveWord : List Char := "five".toList
def hillary : List Char := "Hillary".toList

/-- Run input whose six slots are all unset. -/
def inpNone : RunInput := ⟨⟨none, none, none, none, none, none⟩, 1111, now0, env0⟩

/-! ## Helper lemmas -/

theorem dateLoop_eq_firstValidParse (today : PyDate) (l : List (Option (Nat × Nat × Nat))) :
    dateLoop today l =
      (match firstValidParse l with
       | some (d, m, y) => if dateLt ⟨y, m, d⟩ today then none else some (isoFmt ⟨y, m, d⟩)
       | none => none) := by
  induction l with
  | nil => rfl
  | cons p rest ih =>
    cases p with
    | none => simpa [dateLoop, firstValidParse, tryParsedDate] using ih
    | some t =>
      obtain ⟨d, m, y⟩ := t
      by_cases hv : validDate y m d = true
      · by_cases hl : dateLt ⟨y, m, d⟩ today
        · simp [dateLoop, firstValidParse, tryParsedDate, hv, hl]
        · simp [dateLoop, firstValidParse, tryParsedDate, hv, hl]
      · simp only [Bool.not_eq_true] at hv
        simpa [dateLoop, firstValidParse, tryParsedDate, hv] using ih

theorem load_bookings_ok (fs : FStore) (h : fs.writeOk = true) :
    ∃ j fs1, load_bookings fs = Except.ok (j, fs1) ∧
      getBookingsArr j = storeList fs ∧ fs1.writeOk = true := by
  obtain ⟨main, bak, rOk, wOk⟩ := fs
  change wOk = true at h
  subst h
  cases main with
  | missing =>
    exact ⟨baseStore, ⟨FileContent.valid baseStore, bak, rOk, true⟩, rfl, rfl, rfl⟩
  | invalid raw =>
    cases rOk with
    | true =>
      exact ⟨baseStore, ⟨FileContent.valid baseStore, FileContent.invalid raw, true, true⟩,
        rfl, rfl, rfl⟩
    | false =>
      exact ⟨baseStore, ⟨FileContent.valid baseStore, bak, false, true⟩, rfl, rfl, rfl⟩
  | valid j =>
    cases hs : isStoreShape j with
    | true =>
      refine ⟨j, ⟨FileContent.valid j, bak, rOk, true⟩, ?_, ?_, rfl⟩
      · simp [load_bookings, hs]
      · simp [storeList, load_bookings, hs]
    | false =>
      cases j with
      | arr l =>
        refine ⟨Json.obj [(bookingsKey, Json.arr l)],
          ⟨FileContent.valid (Json.arr l), bak, rOk, true⟩, ?_, ?_, rfl⟩
        · simp [load_bookings, hs]
        · simp [storeList, load_bookings, hs, getBookingsArr, jLookup]
      | null =>
        exact ⟨baseStore, ⟨FileContent.valid baseStore, bak, rOk, true⟩, rfl, rfl, rfl⟩
      | bool b =>
        exact ⟨baseStore, ⟨FileContent.valid baseStore, bak, rOk, true⟩, rfl, rfl, rfl⟩
      | num n =>
        exact ⟨baseStore, ⟨FileContent.valid baseStore, bak, rOk, true⟩, rfl, rfl, rfl⟩
      | str s =>
        exact ⟨baseStore, ⟨FileContent.valid baseStore, bak, rOk, true⟩, rfl, rfl, rfl⟩
      | obj f =>
        refine ⟨baseStore, ⟨FileContent.valid baseStore, bak, rOk, true⟩, ?_, ?_, rfl⟩
        · simp [load_bookings, hs, atomicWriteMain]
        · simp [storeList, load_bookings, hs, atomicWriteMain, getBookingsArr, baseStore,
            jLookup]

theorem storeList_after_save (fs : FStore) (l : List Json) (h : fs.writeOk = true) :
    ∃ fs2, save_bookings l fs = Except.ok fs2 ∧ storeList fs2 = l := by
  refine ⟨⟨FileContent.valid (Json.obj [(bookingsKey, Json.arr l)]), fs.bak, fs.renameOk, fs.writeOk⟩, ?_, ?_⟩
  · simp [save_bookings, atomicWriteMain, h]
  · simp [storeList, load_bookings, isStoreShape, jLookup, getBookingsArr]

theorem run_done (inp : RunInput) (fs : FStore) (h : fs.writeOk = true) :
    ∃ fs2, ActionSaveBooking.run inp fs =
        RunResult.done (messagesOf inp) (runEventsOf inp) fs2 ∧
      storeList fs2 = storeList fs ++ [recordJson inp] := by
  obtain ⟨j, fs1, hload, hget, hw1⟩ := load_bookings_ok fs h
  obtain ⟨fs2, hsave, hstore⟩ := storeList_after_save fs1 (getBookingsArr j ++ [recordJson inp]) hw1
  refine ⟨fs2, ?_, ?_⟩
  · simp [ActionSaveBooking.run, hload, hsave]
  · rw [hstore, hget]

/-- The record field of the name slot. -/
theorem recordJson_name (inp : RunInput) :
    jGet (recordJson inp) nameKey = some (pyOrEmpty inp.slots.name) := rfl

theorem recordJson_phone (inp : RunInput) :
    jGet (recordJson inp) phoneKey = some (Json.str (phoneDigitsOf inp)) := rfl

theorem recordJson_date (inp : RunInput) :
    jGet (recordJson inp) dateKey = some (pyOrEmpty inp.slots.date) := rfl

theorem recordJson_time (inp : RunInput) :
    jGet (recordJson inp) timeKey = some (pyOrEmpty inp.slots.time) := rfl

theorem recordJson_party (inp : RunInput) :
    jGet (recordJson inp) partySizeKey = some (pyOrEmpty inp.slots.party_size) := rfl

/-! ## Claim theorems -/

/-- C1, counterexample: the phone validator accepts the 8-digit
candidate unchanged, although 8 is neither 10, 11 nor 12; and it
accepts the 12-digit candidate starting with 91 returning all 12
digits, not the canonical 10-digit string the claim requires. -/
theorem phone_strict_counterexample :
    ValidateBookingForm.validate_phone phone8 (trFor phoneKey) = some phone8 ∧
    phone8.length = 8 ∧
    ValidateBookingForm.validate_phone phone12 (trFor phoneKey) = some phone12 ∧
    phone12.length = 12 := by decide

/-- C1 (amended): when phone is the requested slot and the candidate is
not a trigger phrase, the validator extracts the digits and accepts
exactly when their count lies in 7 through 15, returning the digit
string unchanged (no country-code or leading-zero stripping); every
other digit count is rejected. -/
theorem phone_accepts_7_to_15 (v : List Char) (tr : Tracker)
    (h1 : tr.requested_slot = some phoneKey)
    (h2 : is_trigger_phrase (some v) tr = false) :
    ValidateBookingForm.validate_phone v tr =
      (if 7 ≤ (normalize_digits v).length ∧ (normalize_digits v).length ≤ 15
       then some (normalize_digits v) else none) := by
  simp only [ValidateBookingForm.validate_phone, h1, if_pos, h2, Bool.false_eq_true,
    if_false, if_true]
  split_ifs with ha hb
  · exfalso; omega
  · rfl
  · rfl
  · exfalso; omega

/-- C1, witness at a 10-digit candidate. -/
theorem phone_accepts_7_to_15_witness :
    ValidateBookingForm.validate_phone phone10 (trFor phoneKey) =
      (if 7 ≤ (normalize_digits phone10).length ∧ (normalize_digits phone10).length ≤ 15
       then some (normalize_digits phone10) else none) :=
  phone_accepts_7_to_15 phone10 (trFor phoneKey) rfl (by decide)

/-- C2, counterexample: with today 2026-10-12 the date validator
accepts 2030-01-01 (written in YYYY-MM-DD, not DD/MM/YYYY), a date more
than 90 days after today, although the claim requires rejection beyond
the 90-day horizon. -/
theorem date_horizon_counterexample :
    ValidateBookingForm.validate_date dateFar (trFor dateKey) today0 = some dateFar ∧
    toOrdinal ⟨2030, 1, 1⟩ > toOrdinal today0 + 90 := by decide

/-- C2 (amended): when date is the requested slot and the candidate is
not a trigger phrase, the validator accepts exactly the candidates
whose first successful parse among DD/MM/YYYY, YYYY-MM-DD, DD-MM-YYYY
and the loose digit-extraction pattern is a constructible calendar date
not strictly before today, returning it as YYYY-MM-DD; dates before
today and unparsable input are rejected, and no upper horizon exists. -/
theorem date_accepts_iff_parses_future (v : List Char) (tr : Tracker) (today : PyDate)
    (h1 : tr.requested_slot = some dateKey)
    (h2 : is_trigger_phrase (some v) tr = false) :
    ValidateBookingForm.validate_date v tr today =
      (match firstValidParse (formatChain (pstrip v)) with
       | some (d, m, y) => if dateLt ⟨y, m, d⟩ today then none else some (isoFmt ⟨y, m, d⟩)
       | none => none) := by
  simp [ValidateBookingForm.validate_date, h1, h2, dateLoop_eq_firstValidParse]

/-- C2, witness at a DD/MM/YYYY candidate. -/
theorem date_accepts_iff_parses_future_witness :
    ValidateBookingForm.validate_date dateWit (trFor dateKey) today0 =
      (match firstValidParse (formatChain (pstrip dateWit)) with
       | some (d, m, y) =>
         if dateLt ⟨y, m, d⟩ today0 then none else some (isoFmt ⟨y, m, d⟩)
       | none => none) :=
  date_accepts_iff_parses_future dateWit (trFor dateKey) today0 rfl (by decide)

/-- C3, counterexample: the time validator accepts 02:00, although the
claim requires every time outside the 07:30-to-01:30 wraparound window,
in particular 02:00, to be rejected. -/
theorem time_window_counterexample :
    ValidateBookingForm.validate_time time0200 (trFor timeKey) = some time0200 := by
  decide

/-- C3 (amended): when time is the requested slot and the candidate is
not a trigger phrase, the validator accepts exactly the candidates the
H:M parse or the in-bounds digit extraction understands, returning the
zero-padded HH:MM; no opening or closing bound is consulted, so 08:00,
01:00 and 02:00 are all accepted. -/
theorem time_accepts_all_wellformed (v : List Char) (tr : Tracker)
    (h1 : tr.requested_slot = some timeKey)
    (h2 : is_trigger_phrase (some v) tr = false) :
    ValidateBookingForm.validate_time v tr =
      (match timeParsed (pstrip v) with
       | some (h, m) => some (pad2 h ++ [colonC] ++ pad2 m)
       | none => none) := by
  simp only [ValidateBookingForm.validate_time, timeParsed, h1, if_pos, h2,
    Bool.false_eq_true, if_false, if_true]
  cases hs : strptimeHM (pstrip v) with
  | some hm => simp [hs]
  | none =>
    cases hm : searchHM (pstrip v) with
    | some t =>
      obtain ⟨hh, mm⟩ := t
      by_cases hb : hh ≤ 23 ∧ mm ≤ 59
      · simp [hs, hm, hb]
      · simp [hs, hm, hb]
    | none => simp [hs, hm]

/-- C3, witness at 02:00, accepted with no window check. -/
theorem time_accepts_all_wellformed_witness :
    ValidateBookingForm.validate_time time0200 (trFor timeKey) =
      (match timeParsed (pstrip time0200) with
       | some (h, m) => some (pad2 h ++ [colonC] ++ pad2 m)
       | none => none) :=
  time_accepts_all_wellformed time0200 (trFor timeKey) rfl (by decide)

/-- C4, counterexample: the party-size validator accepts the word
number five (value 5), although the claim says only digit strings are
accepted and word numbers are unsupported in this variant. -/
theorem party_word_counterexample :
    ValidateBookingForm.validate_party_size fiveWord (trFor partySizeKey) = some 5 := by
  decide

/-- C4 (amended): when party_size is the requested slot and the
nonempty candidate is not a trigger phrase, the validator accepts
exactly when the first digit run, or else the first word among one
through twenty, yields a value in 1 through 20; 0, 21 and abc are
rejected, 1 and 20 accepted, and word numbers such as five are also
accepted. -/
theorem party_size_accepts_1_to_20 (v : List Char) (tr : Tracker)
    (h1 : tr.requested_slot = some partySizeKey)
    (h2 : is_trigger_phrase (some v) tr = false)
    (h3 : v.isEmpty = false) :
    ValidateBookingForm.validate_party_size v tr =
      (match extractNum (pyLower (pstrip v)) with
       | some n => if 1 ≤ n ∧ n ≤ 20 then some n else none
       | none => none) := by
  simp only [ValidateBookingForm.validate_party_size, extractNum, h1, if_pos, h2, h3,
    Bool.false_eq_true, if_false, if_true]
  cases hd : firstDigitRun (pyLower (pstrip v)) with
  | some run =>
    simp only [hd]
    split_ifs with ha hb
    · exfalso; omega
    · rfl
    · rfl
    · exfalso; omega
  | none =>
    simp only [hd]
    cases hw : firstHit numberWordVal (alphaRuns (pyLower (pstrip v))) with
    | some n =>
      simp only [hw]
      split_ifs with ha hb
      · exfalso; omega
      · rfl
      · rfl
      · exfalso; omega
    | none => simp [hw]

/-- C4, witness at the candidate 20. -/
theorem party_size_accepts_1_to_20_witness :
    ValidateBookingForm.validate_party_size ("20".toList) (trFor partySizeKey) =
      (match extractNum (pyLower (pstrip ("20".toList))) with
       | some n => if 1 ≤ n ∧ n ≤ 20 then some n else none
       | none => none) :=
  party_size_accepts_1_to_20 ("20".toList) (trFor partySizeKey) rfl (by decide) (by decide)

/-- C10: every candidate whose stripped lowercase text has at most 3
words and contains one of the substrings book, booking, menu, reserve,
hi, hello, table is classified as a trigger phrase, and validate_name
rejects it; in particular short names such as Hillary (contains hi) and
Booker (contains book) are rejected as field values. -/
theorem trigger_guard_rejects (v : List Char) (tr : Tracker)
    (h1 : tr.requested_slot = some nameKey)
    (h3 : wordCount (pyLower (pstrip v)) ≤ 3)
    (h4 : anyKeyword (pyLower (pstrip v)) = true) :
    is_trigger_phrase (some v) tr = true ∧
      ValidateBookingForm.validate_name v tr = none := by
  have hne : v.isEmpty = false := by
    cases v with
    | nil => exact absurd h4 (by decide)
    | cons c cs => rfl
  have htrig : is_trigger_phrase (some v) tr = true := by
    simp only [is_trigger_phrase, hne, Bool.false_eq_true, if_false]
    split_ifs with a b c
    · rfl
    · rfl
    · rfl
    · exact absurd ⟨h3, h4⟩ c
  exact ⟨htrig, by simp [ValidateBookingForm.validate_name, h1, htrig]⟩

/-- C10, witness at the name Hillary. -/
theorem trigger_guard_rejects_witness :
    is_trigger_phrase (some hillary) (trFor nameKey) = true ∧
      ValidateBookingForm.validate_name hillary (trFor nameKey) = none :=
  trigger_guard_rejects hillary (trFor nameKey) rfl (by decide) (by decide)

/-- C5: for every prior store state (with the disk writable), saving a
booking and reloading the store yields the prior records unchanged and
in order with the written record appended as the last element. -/
theorem save_then_reload_appends (inp : RunInput) (fs : FStore) (h : fs.writeOk = true) :
    ∃ msgs evs fs2, ActionSaveBooking.run inp fs = RunResult.done msgs evs fs2 ∧
      storeList fs2 = storeList fs ++ [recordJson inp] ∧
      (storeList fs2).getLast? = some (recordJson inp) ∧
      (storeList fs2).dropLast = storeList fs := by
  obtain ⟨fs2, hrun, hstore⟩ := run_done inp fs h
  refine ⟨messagesOf inp, runEventsOf inp, fs2, hrun, hstore, ?_, ?_⟩
  · rw [hstore]; exact List.getLast?_concat _
  · rw [hstore]; exact List.dropLast_concat

/-- C5, witness at a fresh store. -/
theorem save_then_reload_appends_witness :
    ∃ msgs evs fs2, ActionSaveBooking.run inp0 fs0 = RunResult.done msgs evs fs2 ∧
      storeList fs2 = storeList fs0 ++ [recordJson inp0] ∧
      (storeList fs2).getLast? = some (recordJson inp0) ∧
      (storeList fs2).dropLast = storeList fs0 :=
  save_then_reload_appends inp0 fs0 rfl

/-- C6, counterexample: on a bookings file holding valid JSON of the
wrong structure, load_bookings returns the empty store but leaves the
.bak path untouched (here still missing) — no backup is created,
although the claim requires the bad file to be renamed to .bak for
structural mismatches as well. -/
theorem load_badshape_counterexample :
    load_bookings fs6 =
      Except.ok (baseStore, ⟨FileContent.valid baseStore, fs6.bak, true, true⟩) := rfl

/-- C6 (amended): loading never raises when the fresh write succeeds.
On content that fails to parse as JSON, the bad file is renamed to .bak
(best-effort: when the rename fails the file is simply overwritten) and
the empty store is written and returned. On valid JSON of the wrong
structure (not a bookings dict and not a legacy list) the empty store
is written and returned without creating a backup. -/
theorem load_bookings_recovers (fs : FStore) (h : fs.writeOk = true) :
    (∀ raw, fs.main = FileContent.invalid raw →
      load_bookings fs = Except.ok (baseStore,
        ⟨FileContent.valid baseStore,
         if fs.renameOk then FileContent.invalid raw else fs.bak,
         fs.renameOk, fs.writeOk⟩)) ∧
    (∀ j, fs.main = FileContent.valid j → isStoreShape j = false →
      (∀ l, j ≠ Json.arr l) →
      load_bookings fs = Except.ok (baseStore,
        ⟨FileContent.valid baseStore, fs.bak, fs.renameOk, fs.writeOk⟩)) := by
  obtain ⟨main, bak, rOk, wOk⟩ := fs
  change wOk = true at h
  subst h
  constructor
  · intro raw hm
    change main = FileContent.invalid raw at hm
    subst hm
    cases rOk with
    | true => rfl
    | false => rfl
  · intro j hm hshape harr
    change main = FileContent.valid j at hm
    subst hm
    cases j with
    | null => rfl
    | bool b => rfl
    | num n => rfl
    | str s => rfl
    | arr l => exact absurd rfl (harr l)
    | obj f => simp [load_bookings, hshape, atomicWriteMain]

/-- C6, witness at an unparsable bookings file with a working rename. -/
theorem load_bookings_recovers_witness :
    load_bookings fs6b = Except.ok (baseStore,
      ⟨FileContent.valid baseStore,
       if fs6b.renameOk then FileContent.invalid raw6 else fs6b.bak,
       fs6b.renameOk, fs6b.writeOk⟩) :=
  (load_bookings_recovers fs6b rfl).1 raw6 rfl

/-- C7, counterexample: when persistence fails, ActionSaveBooking.run
raises (no completed outcome) and no user-visible message is dispatched
at all — the claim requires a visible technical-issue message and no
abort of the conversation. -/
theorem persist_failure_counterexample :
    ActionSaveBooking.run inp0 fs7 = RunResult.raised fs7 ∧
      runMessages (ActionSaveBooking.run inp0 fs7) = [] := ⟨rfl, rfl⟩

/-- C7 (amended): if persisting fails, the exception propagates
uncaught out of ActionSaveBooking.run, aborting the action without any
user-visible message; booking_confirmed is not set because the slot
events are only returned on the completed path. -/
theorem persist_failure_raises (inp : RunInput) (fs : FStore) (h : fs.writeOk = false) :
    ∃ fsE, ActionSaveBooking.run inp fs = RunResult.raised fsE := by
  obtain ⟨main, bak, rOk, wOk⟩ := fs
  change wOk = false at h
  subst h
  cases main with
  | missing => exact ⟨⟨FileContent.missing, bak, rOk, false⟩, rfl⟩
  | invalid raw =>
    cases rOk with
    | true => exact ⟨⟨FileContent.missing, FileContent.invalid raw, true, false⟩, rfl⟩
    | false => exact ⟨⟨FileContent.invalid raw, bak, false, false⟩, rfl⟩
  | valid j =>
    cases hs : isStoreShape j with
    | true =>
      refine ⟨⟨FileContent.valid j, bak, rOk, false⟩, ?_⟩
      simp [ActionSaveBooking.run, load_bookings, hs, save_bookings, atomicWriteMain]
    | false =>
      cases j with
      | null => exact ⟨⟨FileContent.valid Json.null, bak, rOk, false⟩, rfl⟩
      | bool b => exact ⟨⟨FileContent.valid (Json.bool b), bak, rOk, false⟩, rfl⟩
      | num n => exact ⟨⟨FileContent.valid (Json.num n), bak, rOk, false⟩, rfl⟩
      | str s => exact ⟨⟨FileContent.valid (Json.str s), bak, rOk, false⟩, rfl⟩
      | arr l =>
        refine ⟨⟨FileContent.valid (Json.arr l), bak, rOk, false⟩, ?_⟩
        simp [ActionSaveBooking.run, load_bookings, hs, save_bookings, atomicWriteMain]
      | obj f =>
        refine ⟨⟨FileContent.valid (Json.obj f), bak, rOk, false⟩, ?_⟩
        simp [ActionSaveBooking.run, load_bookings, hs, atomicWriteMain]

/-- C7, witness at a valid store whose write fails. -/
theorem persist_failure_raises_witness :
    ∃ fsE, ActionSaveBooking.run inp0 fs7 = RunResult.raised fsE :=
  persist_failure_raises inp0 fs7 rfl

/-- C8, counterexample: with Twilio unavailable the run still dispatches
a user-visible message saying the SMS was not sent — the skip is not
silent, although the claim says sending is skipped silently (log only)
when configuration or the client is absent. -/
theorem sms_skip_not_silent :
    notConfiguredMsgText ∈ runMessages (ActionSaveBooking.run inp0 fs0) := by decide

/-- C8 (amended): a failing SMS send is caught: the run completes with
the booking persisted and appended, a warning message naming the send
error, and booking_confirmed still set; when configuration or the
client is absent the send is skipped and the booking is likewise saved
and confirmed, but the user is told the SMS was not sent (the skip is
logged and announced, not silent). -/
theorem sms_failure_nonfatal (inp : RunInput) (fs : FStore) (h : fs.writeOk = true) :
    ((sendCond inp = true ∧ inp.env.sendOk = false) →
      ∃ fs2, ActionSaveBooking.run inp fs =
          RunResult.done [savedMsgText inp, failMsgText inp] (runEventsOf inp) fs2 ∧
        storeList fs2 = storeList fs ++ [recordJson inp] ∧
        (bookingConfirmedKey, Json.bool true) ∈ runEventsOf inp) ∧
    (sendCond inp = false →
      ∃ fs2, ActionSaveBooking.run inp fs =
          RunResult.done [savedMsgText inp, notConfiguredMsgText] (runEventsOf inp) fs2 ∧
        storeList fs2 = storeList fs ++ [recordJson inp] ∧
        (bookingConfirmedKey, Json.bool true) ∈ runEventsOf inp) := by
  obtain ⟨fs2, hrun, hstore⟩ := run_done inp fs h
  constructor
  · rintro ⟨hc, hsend⟩
    have hmsg : messagesOf inp = [savedMsgText inp, failMsgText inp] := by
      simp [messagesOf, hc, hsend]
    rw [hmsg] at hrun
    exact ⟨fs2, hrun, hstore, by simp [runEventsOf]⟩
  · intro hc
    have hmsg : messagesOf inp = [savedMsgText inp, notConfiguredMsgText] := by
      simp [messagesOf, hc]
    rw [hmsg] at hrun
    exact ⟨fs2, hrun, hstore, by simp [runEventsOf]⟩

/-- C8, witness at a configured environment whose send raises. -/
theorem sms_failure_nonfatal_witness :
    ∃ fs2, ActionSaveBooking.run inp8 fs0 =
        RunResult.done [savedMsgText inp8, failMsgText inp8] (runEventsOf inp8) fs2 ∧
      storeList fs2 = storeList fs0 ++ [recordJson inp8] ∧
      (bookingConfirmedKey, Json.bool true) ∈ runEventsOf inp8 :=
  (sms_failure_nonfatal inp8 fs0 rfl).1 ⟨rfl, rfl⟩

/-- C9: ActionSaveBooking never re-validates: for every slot state —
including all-None slots — the run (with the disk writable) completes,
appends the record built with the empty string substituted for missing
name, phone, date, time and party_size, and returns booking_confirmed
set to true; no input is refused. -/
theorem save_never_revalidates (inp : RunInput) (fs : FStore) (h : fs.writeOk = true) :
    ∃ fs2, ActionSaveBooking.run inp fs =
        RunResult.done (messagesOf inp) (runEventsOf inp) fs2 ∧
      storeList fs2 = storeList fs ++ [recordJson inp] ∧
      (bookingConfirmedKey, Json.bool true) ∈ runEventsOf inp ∧
      (inp.slots.name = none → jGet (recordJson inp) nameKey = some (Json.str [])) ∧
      (inp.slots.phone = none → jGet (recordJson inp) phoneKey = some (Json.str [])) ∧
      (inp.slots.date = none → jGet (recordJson inp) dateKey = some (Json.str [])) ∧
      (inp.slots.time = none → jGet (recordJson inp) timeKey = some (Json.str [])) ∧
      (inp.slots.party_size = none →
        jGet (recordJson inp) partySizeKey = some (Json.str [])) := by
  obtain ⟨fs2, hrun, hstore⟩ := run_done inp fs h
  refine ⟨fs2, hrun, hstore, by simp [runEventsOf], ?_, ?_, ?_, ?_, ?_⟩
  · intro hx; rw [recordJson_name, hx]; rfl
  · intro hx; rw [recordJson_phone]; simp [phoneDigitsOf, hx, pyOrEmpty, pyStr,
      normalize_digits]
  · intro hx; rw [recordJson_date, hx]; rfl
  · intro hx; rw [recordJson_time, hx]; rfl
  · intro hx; rw [recordJson_party, hx]; rfl

/-- C9, witness at the all-None slot state. -/
theorem save_never_revalidates_witness :
    ∃ fs2, ActionSaveBooking.run inpNone fs0 =
        RunResult.done (messagesOf inpNone) (runEventsOf inpNone) fs2 ∧
      storeList fs2 = storeList fs0 ++ [recordJson inpNone] ∧
      (bookingConfirmedKey, Json.bool true) ∈ runEventsOf inpNone ∧
      (inpNone.slots.name = none → jGet (recordJson inpNone) nameKey = some (Json.str [])) ∧
      (inpNone.slots.phone = none → jGet (recordJson inpNone) phoneKey = some (Json.str [])) ∧
      (inpNone.slots.date = none → jGet (recordJson inpNone) dateKey = some (Json.str [])) ∧
      (inpNone.slots.time = none → jGet (recordJson inpNone) timeKey = some (Json.str [])) ∧
      (inpNone.slots.party_size = none →
        jGet (recordJson inpNone) partySizeKey = some (Json.str [])) :=
  save_never_revalidates inpNone fs0 rfl

